import Mathlib

/-!
Verification of the Proxy-Tools repository (proxy_checker.py, proxy_scraper.py).

Shallow embedding conventions:
* `ProxyChecker` carries the mutable state of the Python `ProxyChecker` object:
  the five in-memory buckets, the progress counters, the cumulative per-bucket
  totals, and the save-interval bookkeeping.  The five output files are
  modelled as lists of lines (`file_http`, ...): each Python
  `f.write('\n'.join(bucket) + '\n')` in append mode appends exactly
  `len(bucket)` lines to the file, which the model renders as list append.
  Fields with no bearing on the claims (timeout, max_workers, test URLs,
  timestamped file names, the threading lock) are omitted.
* Network effects are oracle parameters: an HTTP probe receives the outcome
  of its `requests.get` call (`HttpResult`), a SOCKS probe receives the
  outcome of its `sock.connect` call (`ConnectResult`).  The bare
  `except: pass` handlers of the source become total functions on these
  oracles.
* File writes may fail (permissions, disk full): each drain takes one
  boolean per target file saying whether writing to it succeeds.  A failing
  write raises in Python; the model returns the partially-updated state
  together with an error flag, mirroring exactly which statements had
  executed before the raise.
* Python `int` arithmetic on counters is `Nat` here; every subtraction that
  occurs (`checked_proxies - last_save_count`, `original - unique`) is
  non-negative on all reachable states, so `Nat` subtraction agrees.
-/

/-- Outcome of the `requests.get` call inside an HTTP/HTTPS probe:
either a response arrived within the timeout carrying a status code, or the
call raised (timeout, refusal, protocol error, malformed response, ...). -/
inductive HttpResult where
  | response (status : Nat)
  | exn
deriving DecidableEq, Repr

/-- Outcome of the proxied `sock.connect` inside a SOCKS probe: the connect
completed, or it raised (timeout, refusal, handshake failure, ...). -/
inductive ConnectResult where
  | connected
  | exn
deriving DecidableEq, Repr

/-- The whitespace characters Python's `str.strip()` removes (the ASCII
ones; the repository's inputs are ASCII `host:port` lines). -/
def isPySpace (c : Char) : Bool :=
  c = ' ' || c = '\t' || c = '\n' || c = '\x0d' || c = '\x0b' || c = '\x0c'

/-- Python `s.strip()`: drop leading and trailing whitespace. -/
def pyStrip (s : String) : String :=
  String.mk (((s.data.dropWhile isPySpace).reverse.dropWhile isPySpace).reverse)

/-- Helper for `pySplitOn`: accumulate the current piece (reversed) while
walking the characters. -/
def pySplitAux (sep : Char) : List Char → List Char → List String
  | [], acc => [String.mk acc.reverse]
  | c :: cs, acc =>
    if c = sep then String.mk acc.reverse :: pySplitAux sep cs []
    else pySplitAux sep cs (c :: acc)

/-- Python `s.split(sep)` for a one-character separator: every occurrence
of `sep` cuts, empty pieces are kept, `"".split(sep) == ['']`. -/
def pySplitOn (sep : Char) (s : String) : List String :=
  pySplitAux sep s.data []

/-- All-digit parse: `some n` when the characters are one or more decimal
digits, `none` otherwise. -/
def digitsToNat : List Char → Option Nat
  | [] => none
  | l =>
    if l.all Char.isDigit then
      some (l.foldl (fun n c => 10 * n + (c.toNat - 48)) 0)
    else none

/-- Python `int(s)` restricted to what the repository feeds it: strips
surrounding whitespace, accepts an optional sign followed by one or more
digits, and raises `ValueError` (here `none`) on anything else.
(Underscore digit separators, accepted by CPython, are not modelled; no
code path in the repository can produce them.) -/
def pyInt (s : String) : Option Int :=
  match (pyStrip s).data with
  | '-' :: rest => (digitsToNat rest).map (fun n => -(n : Int))
  | '+' :: rest => (digitsToNat rest).map (fun n => (n : Int))
  | t => (digitsToNat t).map (fun n => (n : Int))

/-- Python `a, b = s.split(c)`: succeeds with the two parts exactly when the
split yields two pieces, otherwise `ValueError` (modelled as `none`). -/
def splitUnpack2 (sep : Char) (s : String) : Option (String × String) :=
  match pySplitOn sep s with
  | [a, b] => some (a, b)
  | _ => none

/-- `ProxyChecker.test_http_proxy` (proxy_checker.py:87-106): builds a proxy
dict from `proxy`, issues `requests.get(self.test_url, ...)`, returns `True`
iff a response with status 200 arrives; every exception falls into the bare
`except: pass` and the function returns `False`. -/
def test_http_proxy (_proxy : String) (net : HttpResult) : Bool :=
  match net with
  | .response status => status == 200
  | .exn => false

/-- `ProxyChecker.test_https_proxy` (proxy_checker.py:108-127): same shape as
the HTTP probe, against `self.test_url_https`. -/
def test_https_proxy (_proxy : String) (net : HttpResult) : Bool :=
  match net with
  | .response status => status == 200
  | .exn => false

/-- `ProxyChecker.test_socks4_proxy` (proxy_checker.py:129-146):
`ip, port = proxy.split(':')` then `int(port)` (a failure of either raises
and is absorbed as `False`), then a SOCKS4 connect to httpbin.org:80; `True`
iff the connect completes. -/
def test_socks4_proxy (proxy : String) (net : ConnectResult) : Bool :=
  match splitUnpack2 ':' proxy with
  | none => false
  | some (_ip, port) =>
    match pyInt port with
    | none => false
    | some _ =>
      match net with
      | .connected => true
      | .exn => false

/-- `ProxyChecker.test_socks5_proxy` (proxy_checker.py:185-202): identical to
the SOCKS4 probe except for the SOCKS version handed to `set_proxy`. -/
def test_socks5_proxy (proxy : String) (net : ConnectResult) : Bool :=
  match splitUnpack2 ':' proxy with
  | none => false
  | some (_ip, port) =>
    match pyInt port with
    | none => false
    | some _ =>
      match net with
      | .connected => true
      | .exn => false

/-- `ProxyScraper.validate_proxy_format` (proxy_scraper.py:93-114): split on
the colon (exactly two parts, else the unpack raises → `False`), the IP part
must have exactly four dot-separated components each parsing to an integer
in [0,255] (an `int` failure raises → `False`), and the port must parse to
an integer in [1,65535]. -/
def validate_proxy_format (proxy : String) : Bool :=
  match splitUnpack2 ':' proxy with
  | none => false
  | some (ip, port) =>
    let parts := pySplitOn '.' ip
    if parts.length ≠ 4 then false
    else if !(parts.all fun part =>
        match pyInt part with
        | some n => decide (0 ≤ n ∧ n ≤ 255)
        | none => false) then false
    else
      match pyInt port with
      | some portNum => decide (1 ≤ portNum ∧ portNum ≤ 65535)
      | none => false

/-- `ProxyChecker.load_proxies` (proxy_checker.py:60-85) on an already-read
line sequence: strip every line, keep the truthy (non-empty) results, then
`list(set(...))`.  `List.dedup` models the Python set: same members, one
occurrence each (Python's iteration order is arbitrary; no claim depends on
the order, only on membership and cardinality). -/
def load_proxies (lines : List String) : List String :=
  let all_lines := (lines.map pyStrip).filter (fun l => l ≠ "")
  all_lines.dedup

/-- `original_count` as computed at proxy_checker.py:68. -/
def original_count (lines : List String) : Nat :=
  ((lines.map pyStrip).filter (fun l => l ≠ "")).length

/-- `unique_count` as computed at proxy_checker.py:69. -/
def unique_count (lines : List String) : Nat :=
  (load_proxies lines).length

/-- `duplicates_removed` as computed at proxy_checker.py:70. -/
def duplicates_removed (lines : List String) : Nat :=
  original_count lines - unique_count lines

/-- The `results` dict built by `check_proxy` (proxy_checker.py:206-212). -/
structure ProbeResults where
  proxy : String
  http : Bool
  https : Bool
  socks4 : Bool
  socks5 : Bool
deriving DecidableEq, Repr

/-- State of a `ProxyChecker` instance (proxy_checker.py:20-58) plus the
five timestamped output files, modelled as the list of lines each holds. -/
structure ProxyChecker where
  working_http : List String
  working_https : List String
  working_socks4 : List String
  working_socks5 : List String
  failed_proxies : List String
  total_proxies : Nat
  checked_proxies : Nat
  last_save_count : Nat
  save_interval : Nat
  total_working_http : Nat
  total_working_https : Nat
  total_working_socks4 : Nat
  total_working_socks5 : Nat
  total_failed_proxies : Nat
  file_http : List String
  file_https : List String
  file_socks4 : List String
  file_socks5 : List String
  file_failed : List String
deriving DecidableEq, Repr

/-- `ProxyChecker.__init__` (proxy_checker.py:21-58): empty buckets, zero
counters, fresh (empty) timestamped files.  `save_interval` is 500 in the
source; it is a parameter here because the claims quantify over it. -/
def initChecker (save_interval : Nat) : ProxyChecker :=
  { working_http := [], working_https := [], working_socks4 := []
    working_socks5 := [], failed_proxies := []
    total_proxies := 0, checked_proxies := 0, last_save_count := 0
    save_interval := save_interval
    total_working_http := 0, total_working_https := 0
    total_working_socks4 := 0, total_working_socks5 := 0
    total_failed_proxies := 0
    file_http := [], file_https := [], file_socks4 := []
    file_socks5 := [], file_failed := [] }

/-- One `if bucket:` block of `save_intermediate_results`
(e.g. proxy_checker.py:151-155): when the bucket is non-empty, open the file
and append the bucket (the write may raise — `ok = false` — in which case
nothing of the block has taken effect), then add the bucket length to the
cumulative total and clear the bucket.  Returns the new
(bucket, file, total) and whether the write raised. -/
def drain_step (ok : Bool) (bucket file : List String) (total : Nat) :
    (List String × List String × Nat) × Bool :=
  if bucket.isEmpty then ((bucket, file, total), false)
  else if ok then (([], file ++ bucket, total + bucket.length), false)
  else ((bucket, file, total), true)

/-- Sequencing of the method body under Python exception semantics: when
the step so far has raised (`r.2 = true`) the rest of the method body is
skipped and the state is left as the raise left it. -/
def andThen (r : ProxyChecker × Bool)
    (next : ProxyChecker → ProxyChecker × Bool) : ProxyChecker × Bool :=
  if r.2 then r else next r.1

/-- The http block of `save_intermediate_results` (proxy_checker.py:151-155)
applied to the checker state. -/
def drain_http (ok : Bool) (s : ProxyChecker) : ProxyChecker × Bool :=
  match drain_step ok s.working_http s.file_http s.total_working_http with
  | ((b, f, t), e) =>
    ({ s with working_http := b, file_http := f, total_working_http := t }, e)

/-- The https block of `save_intermediate_results` (proxy_checker.py:157-161). -/
def drain_https (ok : Bool) (s : ProxyChecker) : ProxyChecker × Bool :=
  match drain_step ok s.working_https s.file_https s.total_working_https with
  | ((b, f, t), e) =>
    ({ s with working_https := b, file_https := f, total_working_https := t }, e)

/-- The socks4 block of `save_intermediate_results` (proxy_checker.py:163-167). -/
def drain_socks4 (ok : Bool) (s : ProxyChecker) : ProxyChecker × Bool :=
  match drain_step ok s.working_socks4 s.file_socks4 s.total_working_socks4 with
  | ((b, f, t), e) =>
    ({ s with working_socks4 := b, file_socks4 := f, total_working_socks4 := t }, e)

/-- The socks5 block of `save_intermediate_results` (proxy_checker.py:169-173). -/
def drain_socks5 (ok : Bool) (s : ProxyChecker) : ProxyChecker × Bool :=
  match drain_step ok s.working_socks5 s.file_socks5 s.total_working_socks5 with
  | ((b, f, t), e) =>
    ({ s with working_socks5 := b, file_socks5 := f, total_working_socks5 := t }, e)

/-- The failed block of `save_intermediate_results` (proxy_checker.py:176-180). -/
def drain_failed (ok : Bool) (s : ProxyChecker) : ProxyChecker × Bool :=
  match drain_step ok s.failed_proxies s.file_failed s.total_failed_proxies with
  | ((b, f, t), e) =>
    ({ s with failed_proxies := b, file_failed := f, total_failed_proxies := t }, e)

/-- `ProxyChecker.save_intermediate_results` (proxy_checker.py:148-183):
drain the five buckets in source order (http, https, socks4, socks5,
failed); a raising write aborts the method there, leaving the remaining
buckets and `last_save_count` untouched; on full success set
`last_save_count := checked_proxies`.  The five `ok` flags say which target
files are writable.  Returns the state as left by the method and whether it
raised. -/
def save_intermediate_results (okh okhs ok4 ok5 okf : Bool)
    (s : ProxyChecker) : ProxyChecker × Bool :=
  andThen (drain_http okh s) fun s =>
  andThen (drain_https okhs s) fun s =>
  andThen (drain_socks4 ok4 s) fun s =>
  andThen (drain_socks5 ok5 s) fun s =>
  andThen (drain_failed okf s) fun s =>
  ({ s with last_save_count := s.checked_proxies }, false)

/-- One `if bucket:` block of the final `save_results`
(e.g. proxy_checker.py:291-295): append the bucket to the file and add its
length to the total — the source does NOT clear the bucket here.  Returns
the new (file, total) and whether the write raised. -/
def final_step (ok : Bool) (bucket file : List String) (total : Nat) :
    (List String × Nat) × Bool :=
  if bucket.isEmpty then ((file, total), false)
  else if ok then ((file ++ bucket, total + bucket.length), false)
  else ((file, total), true)

/-- The http block of `save_results` (proxy_checker.py:291-295). -/
def final_http (ok : Bool) (s : ProxyChecker) : ProxyChecker × Bool :=
  match final_step ok s.working_http s.file_http s.total_working_http with
  | ((f, t), e) => ({ s with file_http := f, total_working_http := t }, e)

/-- The https block of `save_results` (proxy_checker.py:297-301). -/
def final_https (ok : Bool) (s : ProxyChecker) : ProxyChecker × Bool :=
  match final_step ok s.working_https s.file_https s.total_working_https with
  | ((f, t), e) => ({ s with file_https := f, total_working_https := t }, e)

/-- The socks4 block of `save_results` (proxy_checker.py:303-307). -/
def final_socks4 (ok : Bool) (s : ProxyChecker) : ProxyChecker × Bool :=
  match final_step ok s.working_socks4 s.file_socks4 s.total_working_socks4 with
  | ((f, t), e) => ({ s with file_socks4 := f, total_working_socks4 := t }, e)

/-- The socks5 block of `save_results` (proxy_checker.py:309-313). -/
def final_socks5 (ok : Bool) (s : ProxyChecker) : ProxyChecker × Bool :=
  match final_step ok s.working_socks5 s.file_socks5 s.total_working_socks5 with
  | ((f, t), e) => ({ s with file_socks5 := f, total_working_socks5 := t }, e)

/-- The failed block of `save_results` (proxy_checker.py:315-319). -/
def final_failed (ok : Bool) (s : ProxyChecker) : ProxyChecker × Bool :=
  match final_step ok s.failed_proxies s.file_failed s.total_failed_proxies with
  | ((f, t), e) => ({ s with file_failed := f, total_failed_proxies := t }, e)

/-- `ProxyChecker.save_results` (proxy_checker.py:285-321), the final drain:
under the guard that some bucket is non-empty, append each non-empty bucket
to its file and add its length to the cumulative total, in source order,
without clearing the buckets. -/
def save_results (okh okhs ok4 ok5 okf : Bool) (s : ProxyChecker) :
    ProxyChecker × Bool :=
  if s.working_http.isEmpty ∧ s.working_https.isEmpty ∧
      s.working_socks4.isEmpty ∧ s.working_socks5.isEmpty ∧
      s.failed_proxies.isEmpty then
    (s, false)
  else
    andThen (final_http okh s) fun s =>
    andThen (final_https okhs s) fun s =>
    andThen (final_socks4 ok4 s) fun s =>
    andThen (final_socks5 ok5 s) fun s =>
    final_failed okf s

/-- The probe phase of `ProxyChecker.check_proxy` (proxy_checker.py:206-228):
initialise all flags to `False`, then run the four probes in sequence —
each call is unconditional, only the flag assignment is guarded.  The probe
layer is a parameter: `p_http p` is what `self.test_http_proxy(p)` returns
for candidate `p`, and so on. -/
def compute_results (p_http p_https p_socks4 p_socks5 : String → Bool)
    (proxy : String) : ProbeResults :=
  let results : ProbeResults :=
    { proxy := proxy, http := false, https := false
      socks4 := false, socks5 := false }
  let results := if p_http proxy then { results with http := true } else results
  let results := if p_https proxy then { results with https := true } else results
  let results := if p_socks4 proxy then { results with socks4 := true } else results
  let results := if p_socks5 proxy then { results with socks5 := true } else results
  results

/-- The aggregation statements of `check_proxy`'s locked section
(proxy_checker.py:232-244): increment `checked_proxies`, append the proxy to
each bucket whose flag is true, and to `failed_proxies` when no flag is. -/
def apply_outcome (results : ProbeResults) (s : ProxyChecker) : ProxyChecker :=
  let s := { s with checked_proxies := s.checked_proxies + 1 }
  let s := if results.http then
    { s with working_http := s.working_http ++ [results.proxy] } else s
  let s := if results.https then
    { s with working_https := s.working_https ++ [results.proxy] } else s
  let s := if results.socks4 then
    { s with working_socks4 := s.working_socks4 ++ [results.proxy] } else s
  let s := if results.socks5 then
    { s with working_socks5 := s.working_socks5 ++ [results.proxy] } else s
  let s := if !(results.http || results.https || results.socks4 || results.socks5) then
    { s with failed_proxies := s.failed_proxies ++ [results.proxy] } else s
  s

/-- The whole locked section of `check_proxy` (proxy_checker.py:231-254):
aggregate the outcome, then trigger an intermediate save when the checkpoint
boundary `checked_proxies - last_save_count >= save_interval` is crossed.
A raise inside the save propagates out of `check_proxy` (second component
`true`) with the state as the save left it. -/
def record_result (okh okhs ok4 ok5 okf : Bool) (results : ProbeResults)
    (s : ProxyChecker) : ProxyChecker × Bool :=
  let s := apply_outcome results s
  if s.save_interval ≤ s.checked_proxies - s.last_save_count then
    save_intermediate_results okh okhs ok4 ok5 okf s
  else (s, false)

/-- `ProxyChecker.check_proxy` (proxy_checker.py:204-256): run the four
probes, then record the combined outcome under the lock. -/
def check_proxy (p_http p_https p_socks4 p_socks5 : String → Bool)
    (okh okhs ok4 ok5 okf : Bool) (proxy : String) (s : ProxyChecker) :
    ProxyChecker × Bool :=
  record_result okh okhs ok4 ok5 okf
    (compute_results p_http p_https p_socks4 p_socks5 proxy) s

/-- The checking phase of `ProxyChecker.run_check` (proxy_checker.py:258-281)
over an already-loaded candidate list: `total_proxies` is the unique count
set by `load_proxies`; every candidate is checked exactly once; an exception
escaping `check_proxy` (a failing checkpoint write) is caught by the
`as_completed` loop (printed, not re-raised), so the run continues with the
remaining candidates.  The sequential fold fixes one completion order; the
claims about order-independence quantify over permutations of `proxies`. -/
def run_fold (p_http p_https p_socks4 p_socks5 : String → Bool)
    (okh okhs ok4 ok5 okf : Bool) (save_interval : Nat)
    (proxies : List String) : ProxyChecker :=
  proxies.foldl
    (fun s p => (check_proxy p_http p_https p_socks4 p_socks5 okh okhs ok4 ok5 okf p s).1)
    { initChecker save_interval with total_proxies := proxies.length }

/-- A complete run: the checking phase followed by the final drain that
`display_results` performs via `save_results` (proxy_checker.py:283,346). -/
def run_and_save (p_http p_https p_socks4 p_socks5 : String → Bool)
    (okh okhs ok4 ok5 okf : Bool) (save_interval : Nat)
    (proxies : List String) : ProxyChecker :=
  (save_results okh okhs ok4 ok5 okf
    (run_fold p_http p_https p_socks4 p_socks5 okh okhs ok4 ok5 okf
      save_interval proxies)).1

/-- The success-rate computation of `display_results`
(proxy_checker.py:339-341), in exact rational arithmetic: Python computes
the same value in floats; the claims here are order-of-magnitude bounds
(membership in [0,100]) that the float rounding of a value in [0,100] also
satisfies. -/
def success_rate (s : ProxyChecker) : ℚ :=
  let total_working : Nat := s.total_working_http + s.total_working_https +
    s.total_working_socks4 + s.total_working_socks5
  if total_working ≤ s.total_proxies then
    ((total_working : ℚ) / (s.total_proxies : ℚ)) * 100
  else
    (((s.total_proxies : ℚ) - (s.total_failed_proxies : ℚ)) / (s.total_proxies : ℚ)) * 100

/-- The lines of the http output file together with the http lines still in
memory: everything the run has classified as working-http so far. -/
def live_http (s : ProxyChecker) : List String := s.file_http ++ s.working_http

/-- Written plus in-memory https lines. -/
def live_https (s : ProxyChecker) : List String := s.file_https ++ s.working_https

/-- Written plus in-memory socks4 lines. -/
def live_socks4 (s : ProxyChecker) : List String := s.file_socks4 ++ s.working_socks4

/-- Written plus in-memory socks5 lines. -/
def live_socks5 (s : ProxyChecker) : List String := s.file_socks5 ++ s.working_socks5

/-- Written plus in-memory failed lines. -/
def live_failed (s : ProxyChecker) : List String := s.file_failed ++ s.failed_proxies

/-- Total number of lines the run has written to the five output files. -/
def lines_written (s : ProxyChecker) : Nat :=
  s.file_http.length + s.file_https.length + s.file_socks4.length +
  s.file_socks5.length + s.file_failed.length

/-- How many bucket placements a single outcome causes: one per true flag,
and one (the failed bucket) when no flag is true. -/
def placements (http https socks4 socks5 : Bool) : Nat :=
  if http || https || socks4 || socks5 then
    (if http then 1 else 0) + (if https then 1 else 0) +
    (if socks4 then 1 else 0) + (if socks5 then 1 else 0)
  else 1

/-- The outcome flag that sends a candidate to the failed bucket
(proxy_checker.py:243): no protocol flag is true. -/
def all_failed (p_http p_https p_socks4 p_socks5 : String → Bool)
    (p : String) : Bool :=
  !(p_http p || p_https p || p_socks4 p || p_socks5 p)

/-- The run invariant tying a checker state to the list `done` of
candidates recorded so far: the counters track `done`, each category's
written-plus-in-memory lines are exactly the recorded candidates whose
outcome placed them there, and each cumulative total equals the length of
its file (drains move lines and counts together). -/
def RunInv (p_http p_https p_socks4 p_socks5 : String → Bool)
    (N interval : Nat) (done : List String) (s : ProxyChecker) : Prop :=
  s.checked_proxies = done.length ∧
  s.total_proxies = N ∧
  s.save_interval = interval ∧
  live_http s = done.filter p_http ∧
  live_https s = done.filter p_https ∧
  live_socks4 s = done.filter p_socks4 ∧
  live_socks5 s = done.filter p_socks5 ∧
  live_failed s = done.filter (all_failed p_http p_https p_socks4 p_socks5) ∧
  s.total_working_http = s.file_http.length ∧
  s.total_working_https = s.file_https.length ∧
  s.total_working_socks4 = s.file_socks4.length ∧
  s.total_working_socks5 = s.file_socks5.length ∧
  s.total_failed_proxies = s.file_failed.length

/-! ### Elementary facts about the drain building blocks -/

theorem drain_step_file (ok : Bool) (bucket file : List String) (total : Nat) :
    (drain_step ok bucket file total).1.2.1 ++ (drain_step ok bucket file total).1.1
      = file ++ bucket := by
  unfold drain_step
  split_ifs <;> simp_all

theorem drain_step_total (ok : Bool) (bucket file : List String) (total : Nat) :
    (drain_step ok bucket file total).1.2.2 + (drain_step ok bucket file total).1.1.length
      = total + bucket.length := by
  unfold drain_step
  split_ifs <;> simp_all

theorem drain_step_err (ok : Bool) (bucket file : List String) (total : Nat)
    (h : (drain_step ok bucket file total).2 = true) :
    (drain_step ok bucket file total).1 = (bucket, file, total) := by
  unfold drain_step at *
  split_ifs at h <;> simp_all

theorem drain_step_ok_bucket (bucket file : List String) (total : Nat) :
    (drain_step true bucket file total).1.1 = [] := by
  unfold drain_step
  split_ifs <;> simp_all

theorem drain_step_ok_err (bucket file : List String) (total : Nat) :
    (drain_step true bucket file total).2 = false := by
  unfold drain_step
  split_ifs <;> simp_all

theorem drain_step_tf (ok : Bool) (bucket file : List String) (total : Nat)
    (h : total = file.length) :
    (drain_step ok bucket file total).1.2.2
      = (drain_step ok bucket file total).1.2.1.length := by
  unfold drain_step
  split_ifs <;> simp_all

theorem drain_step_fail (bucket file : List String) (total : Nat)
    (h : bucket ≠ []) :
    (drain_step false bucket file total).2 = true := by
  unfold drain_step
  split_ifs <;> simp_all

theorem drain_http_eq (ok : Bool) (s : ProxyChecker) :
    drain_http ok s =
      ({ s with
          working_http := (drain_step ok s.working_http s.file_http s.total_working_http).1.1,
          file_http := (drain_step ok s.working_http s.file_http s.total_working_http).1.2.1,
          total_working_http := (drain_step ok s.working_http s.file_http s.total_working_http).1.2.2 },
        (drain_step ok s.working_http s.file_http s.total_working_http).2) := rfl

theorem drain_https_eq (ok : Bool) (s : ProxyChecker) :
    drain_https ok s =
      ({ s with
          working_https := (drain_step ok s.working_https s.file_https s.total_working_https).1.1,
          file_https := (drain_step ok s.working_https s.file_https s.total_working_https).1.2.1,
          total_working_https := (drain_step ok s.working_https s.file_https s.total_working_https).1.2.2 },
        (drain_step ok s.working_https s.file_https s.total_working_https).2) := rfl

theorem drain_socks4_eq (ok : Bool) (s : ProxyChecker) :
    drain_socks4 ok s =
      ({ s with
          working_socks4 := (drain_step ok s.working_socks4 s.file_socks4 s.total_working_socks4).1.1,
          file_socks4 := (drain_step ok s.working_socks4 s.file_socks4 s.total_working_socks4).1.2.1,
          total_working_socks4 := (drain_step ok s.working_socks4 s.file_socks4 s.total_working_socks4).1.2.2 },
        (drain_step ok s.working_socks4 s.file_socks4 s.total_working_socks4).2) := rfl

theorem drain_socks5_eq (ok : Bool) (s : ProxyChecker) :
    drain_socks5 ok s =
      ({ s with
          working_socks5 := (drain_step ok s.working_socks5 s.file_socks5 s.total_working_socks5).1.1,
          file_socks5 := (drain_step ok s.working_socks5 s.file_socks5 s.total_working_socks5).1.2.1,
          total_working_socks5 := (drain_step ok s.working_socks5 s.file_socks5 s.total_working_socks5).1.2.2 },
        (drain_step ok s.working_socks5 s.file_socks5 s.total_working_socks5).2) := rfl

theorem drain_failed_eq (ok : Bool) (s : ProxyChecker) :
    drain_failed ok s =
      ({ s with
          failed_proxies := (drain_step ok s.failed_proxies s.file_failed s.total_failed_proxies).1.1,
          file_failed := (drain_step ok s.failed_proxies s.file_failed s.total_failed_proxies).1.2.1,
          total_failed_proxies := (drain_step ok s.failed_proxies s.file_failed s.total_failed_proxies).1.2.2 },
        (drain_step ok s.failed_proxies s.file_failed s.total_failed_proxies).2) := rfl

/-! ### The intermediate save never loses or double-counts a recorded line -/

theorem save_inter_live_http (okh okhs ok4 ok5 okf : Bool) (s : ProxyChecker) :
    live_http (save_intermediate_results okh okhs ok4 ok5 okf s).1 = live_http s := by
  simp only [save_intermediate_results, andThen, drain_http_eq, drain_https_eq,
    drain_socks4_eq, drain_socks5_eq, drain_failed_eq]
  split_ifs <;> simp_all [live_http, drain_step_file]

theorem save_inter_live_https (okh okhs ok4 ok5 okf : Bool) (s : ProxyChecker) :
    live_https (save_intermediate_results okh okhs ok4 ok5 okf s).1 = live_https s := by
  simp only [save_intermediate_results, andThen, drain_http_eq, drain_https_eq,
    drain_socks4_eq, drain_socks5_eq, drain_failed_eq]
  split_ifs <;> simp_all [live_https, drain_step_file]

theorem save_inter_live_socks4 (okh okhs ok4 ok5 okf : Bool) (s : ProxyChecker) :
    live_socks4 (save_intermediate_results okh okhs ok4 ok5 okf s).1 = live_socks4 s := by
  simp only [save_intermediate_results, andThen, drain_http_eq, drain_https_eq,
    drain_socks4_eq, drain_socks5_eq, drain_failed_eq]
  split_ifs <;> simp_all [live_socks4, drain_step_file]

theorem save_inter_live_socks5 (okh okhs ok4 ok5 okf : Bool) (s : ProxyChecker) :
    live_socks5 (save_intermediate_results okh okhs ok4 ok5 okf s).1 = live_socks5 s := by
  simp only [save_intermediate_results, andThen, drain_http_eq, drain_https_eq,
    drain_socks4_eq, drain_socks5_eq, drain_failed_eq]
  split_ifs <;> simp_all [live_socks5, drain_step_file]

theorem save_inter_live_failed (okh okhs ok4 ok5 okf : Bool) (s : ProxyChecker) :
    live_failed (save_intermediate_results okh okhs ok4 ok5 okf s).1 = live_failed s := by
  simp only [save_intermediate_results, andThen, drain_http_eq, drain_https_eq,
    drain_socks4_eq, drain_socks5_eq, drain_failed_eq]
  split_ifs <;> simp_all [live_failed, drain_step_file]

theorem save_inter_placed_http (okh okhs ok4 ok5 okf : Bool) (s : ProxyChecker) :
    (save_intermediate_results okh okhs ok4 ok5 okf s).1.total_working_http +
      (save_intermediate_results okh okhs ok4 ok5 okf s).1.working_http.length
      = s.total_working_http + s.working_http.length := by
  simp only [save_intermediate_results, andThen, drain_http_eq, drain_https_eq,
    drain_socks4_eq, drain_socks5_eq, drain_failed_eq]
  split_ifs <;> simp_all [drain_step_total]

theorem save_inter_placed_https (okh okhs ok4 ok5 okf : Bool) (s : ProxyChecker) :
    (save_intermediate_results okh okhs ok4 ok5 okf s).1.total_working_https +
      (save_intermediate_results okh okhs ok4 ok5 okf s).1.working_https.length
      = s.total_working_https + s.working_https.length := by
  simp only [save_intermediate_results, andThen, drain_http_eq, drain_https_eq,
    drain_socks4_eq, drain_socks5_eq, drain_failed_eq]
  split_ifs <;> simp_all [drain_step_total]

theorem save_inter_placed_socks4 (okh okhs ok4 ok5 okf : Bool) (s : ProxyChecker) :
    (save_intermediate_results okh okhs ok4 ok5 okf s).1.total_working_socks4 +
      (save_intermediate_results okh okhs ok4 ok5 okf s).1.working_socks4.length
      = s.total_working_socks4 + s.working_socks4.length := by
  simp only [save_intermediate_results, andThen, drain_http_eq, drain_https_eq,
    drain_socks4_eq, drain_socks5_eq, drain_failed_eq]
  split_ifs <;> simp_all [drain_step_total]

theorem save_inter_placed_socks5 (okh okhs ok4 ok5 okf : Bool) (s : ProxyChecker) :
    (save_intermediate_results okh okhs ok4 ok5 okf s).1.total_working_socks5 +
      (save_intermediate_results okh okhs ok4 ok5 okf s).1.working_socks5.length
      = s.total_working_socks5 + s.working_socks5.length := by
  simp only [save_intermediate_results, andThen, drain_http_eq, drain_https_eq,
    drain_socks4_eq, drain_socks5_eq, drain_failed_eq]
  split_ifs <;> simp_all [drain_step_total]

theorem save_inter_placed_failed (okh okhs ok4 ok5 okf : Bool) (s : ProxyChecker) :
    (save_intermediate_results okh okhs ok4 ok5 okf s).1.total_failed_proxies +
      (save_intermediate_results okh okhs ok4 ok5 okf s).1.failed_proxies.length
      = s.total_failed_proxies + s.failed_proxies.length := by
  simp only [save_intermediate_results, andThen, drain_http_eq, drain_https_eq,
    drain_socks4_eq, drain_socks5_eq, drain_failed_eq]
  split_ifs <;> simp_all [drain_step_total]

theorem save_inter_checked (okh okhs ok4 ok5 okf : Bool) (s : ProxyChecker) :
    (save_intermediate_results okh okhs ok4 ok5 okf s).1.checked_proxies
      = s.checked_proxies := by
  simp only [save_intermediate_results, andThen, drain_http_eq, drain_https_eq,
    drain_socks4_eq, drain_socks5_eq, drain_failed_eq]
  split_ifs <;> simp_all

theorem save_inter_total_proxies (okh okhs ok4 ok5 okf : Bool) (s : ProxyChecker) :
    (save_intermediate_results okh okhs ok4 ok5 okf s).1.total_proxies
      = s.total_proxies := by
  simp only [save_intermediate_results, andThen, drain_http_eq, drain_https_eq,
    drain_socks4_eq, drain_socks5_eq, drain_failed_eq]
  split_ifs <;> simp_all

theorem save_inter_interval (okh okhs ok4 ok5 okf : Bool) (s : ProxyChecker) :
    (save_intermediate_results okh okhs ok4 ok5 okf s).1.save_interval
      = s.save_interval := by
  simp only [save_intermediate_results, andThen, drain_http_eq, drain_https_eq,
    drain_socks4_eq, drain_socks5_eq, drain_failed_eq]
  split_ifs <;> simp_all

theorem save_inter_last_save (okh okhs ok4 ok5 okf : Bool) (s : ProxyChecker) :
    (save_intermediate_results okh okhs ok4 ok5 okf s).1.last_save_count =
      (if (save_intermediate_results okh okhs ok4 ok5 okf s).2 then s.last_save_count
       else s.checked_proxies) := by
  simp only [save_intermediate_results, andThen, drain_http_eq, drain_https_eq,
    drain_socks4_eq, drain_socks5_eq, drain_failed_eq]
  split_ifs <;> simp_all

theorem save_inter_allok_err (s : ProxyChecker) :
    (save_intermediate_results true true true true true s).2 = false := by
  simp only [save_intermediate_results, andThen, drain_http_eq, drain_https_eq,
    drain_socks4_eq, drain_socks5_eq, drain_failed_eq]
  split_ifs <;> simp_all [drain_step_ok_err]

theorem save_inter_allok_buckets (s : ProxyChecker) :
    (save_intermediate_results true true true true true s).1.working_http = [] ∧
    (save_intermediate_results true true true true true s).1.working_https = [] ∧
    (save_intermediate_results true true true true true s).1.working_socks4 = [] ∧
    (save_intermediate_results true true true true true s).1.working_socks5 = [] ∧
    (save_intermediate_results true true true true true s).1.failed_proxies = [] := by
  simp only [save_intermediate_results, andThen, drain_http_eq, drain_https_eq,
    drain_socks4_eq, drain_socks5_eq, drain_failed_eq]
  split_ifs <;> simp_all [drain_step_ok_err, drain_step_ok_bucket]

theorem save_inter_tf (okh okhs ok4 ok5 okf : Bool) (s : ProxyChecker)
    (h1 : s.total_working_http = s.file_http.length)
    (h2 : s.total_working_https = s.file_https.length)
    (h3 : s.total_working_socks4 = s.file_socks4.length)
    (h4 : s.total_working_socks5 = s.file_socks5.length)
    (h5 : s.total_failed_proxies = s.file_failed.length) :
    (save_intermediate_results okh okhs ok4 ok5 okf s).1.total_working_http
        = (save_intermediate_results okh okhs ok4 ok5 okf s).1.file_http.length ∧
    (save_intermediate_results okh okhs ok4 ok5 okf s).1.total_working_https
        = (save_intermediate_results okh okhs ok4 ok5 okf s).1.file_https.length ∧
    (save_intermediate_results okh okhs ok4 ok5 okf s).1.total_working_socks4
        = (save_intermediate_results okh okhs ok4 ok5 okf s).1.file_socks4.length ∧
    (save_intermediate_results okh okhs ok4 ok5 okf s).1.total_working_socks5
        = (save_intermediate_results okh okhs ok4 ok5 okf s).1.file_socks5.length ∧
    (save_intermediate_results okh okhs ok4 ok5 okf s).1.total_failed_proxies
        = (save_intermediate_results okh okhs ok4 ok5 okf s).1.file_failed.length := by
  simp only [save_intermediate_results, andThen, drain_http_eq, drain_https_eq,
    drain_socks4_eq, drain_socks5_eq, drain_failed_eq]
  split_ifs <;> simp_all [drain_step_tf]

theorem save_inter_fail_http (okhs ok4 ok5 okf : Bool) (s : ProxyChecker)
    (h : s.working_http ≠ []) :
    (save_intermediate_results false okhs ok4 ok5 okf s).2 = true := by
  simp only [save_intermediate_results, andThen, drain_http_eq, drain_https_eq,
    drain_socks4_eq, drain_socks5_eq, drain_failed_eq]
  split_ifs <;> simp_all [drain_step_fail]

/-! ### The final drain and the locked record section -/

theorem final_step_ok (bucket file : List String) (total : Nat) :
    (final_step true bucket file total).1.1 = file ++ bucket ∧
    (final_step true bucket file total).1.2 = total + bucket.length ∧
    (final_step true bucket file total).2 = false := by
  unfold final_step
  split_ifs <;> simp_all

theorem final_http_eq (ok : Bool) (s : ProxyChecker) :
    final_http ok s =
      ({ s with
          file_http := (final_step ok s.working_http s.file_http s.total_working_http).1.1,
          total_working_http := (final_step ok s.working_http s.file_http s.total_working_http).1.2 },
        (final_step ok s.working_http s.file_http s.total_working_http).2) := rfl

theorem final_https_eq (ok : Bool) (s : ProxyChecker) :
    final_https ok s =
      ({ s with
          file_https := (final_step ok s.working_https s.file_https s.total_working_https).1.1,
          total_working_https := (final_step ok s.working_https s.file_https s.total_working_https).1.2 },
        (final_step ok s.working_https s.file_https s.total_working_https).2) := rfl

theorem final_socks4_eq (ok : Bool) (s : ProxyChecker) :
    final_socks4 ok s =
      ({ s with
          file_socks4 := (final_step ok s.working_socks4 s.file_socks4 s.total_working_socks4).1.1,
          total_working_socks4 := (final_step ok s.working_socks4 s.file_socks4 s.total_working_socks4).1.2 },
        (final_step ok s.working_socks4 s.file_socks4 s.total_working_socks4).2) := rfl

theorem final_socks5_eq (ok : Bool) (s : ProxyChecker) :
    final_socks5 ok s =
      ({ s with
          file_socks5 := (final_step ok s.working_socks5 s.file_socks5 s.total_working_socks5).1.1,
          total_working_socks5 := (final_step ok s.working_socks5 s.file_socks5 s.total_working_socks5).1.2 },
        (final_step ok s.working_socks5 s.file_socks5 s.total_working_socks5).2) := rfl

theorem final_failed_eq (ok : Bool) (s : ProxyChecker) :
    final_failed ok s =
      ({ s with
          file_failed := (final_step ok s.failed_proxies s.file_failed s.total_failed_proxies).1.1,
          total_failed_proxies := (final_step ok s.failed_proxies s.file_failed s.total_failed_proxies).1.2 },
        (final_step ok s.failed_proxies s.file_failed s.total_failed_proxies).2) := rfl

theorem save_results_allok (s : ProxyChecker) :
    (save_results true true true true true s).1.file_http = live_http s ∧
    (save_results true true true true true s).1.file_https = live_https s ∧
    (save_results true true true true true s).1.file_socks4 = live_socks4 s ∧
    (save_results true true true true true s).1.file_socks5 = live_socks5 s ∧
    (save_results true true true true true s).1.file_failed = live_failed s ∧
    (save_results true true true true true s).1.total_working_http
      = s.total_working_http + s.working_http.length ∧
    (save_results true true true true true s).1.total_working_https
      = s.total_working_https + s.working_https.length ∧
    (save_results true true true true true s).1.total_working_socks4
      = s.total_working_socks4 + s.working_socks4.length ∧
    (save_results true true true true true s).1.total_working_socks5
      = s.total_working_socks5 + s.working_socks5.length ∧
    (save_results true true true true true s).1.total_failed_proxies
      = s.total_failed_proxies + s.failed_proxies.length ∧
    (save_results true true true true true s).1.checked_proxies = s.checked_proxies ∧
    (save_results true true true true true s).1.total_proxies = s.total_proxies := by
  simp only [save_results, andThen, final_http_eq, final_https_eq, final_socks4_eq,
    final_socks5_eq, final_failed_eq]
  split_ifs <;>
    simp_all [live_http, live_https, live_socks4, live_socks5, live_failed,
      final_step_ok, List.isEmpty_iff]

theorem final_step_fail (bucket file : List String) (total : Nat)
    (h : bucket ≠ []) :
    (final_step false bucket file total).2 = true ∧
    (final_step false bucket file total).1.1 = file ∧
    (final_step false bucket file total).1.2 = total := by
  unfold final_step
  split_ifs <;> simp_all

theorem save_results_buckets (okh okhs ok4 ok5 okf : Bool) (s : ProxyChecker) :
    (save_results okh okhs ok4 ok5 okf s).1.working_http = s.working_http ∧
    (save_results okh okhs ok4 ok5 okf s).1.working_https = s.working_https ∧
    (save_results okh okhs ok4 ok5 okf s).1.working_socks4 = s.working_socks4 ∧
    (save_results okh okhs ok4 ok5 okf s).1.working_socks5 = s.working_socks5 ∧
    (save_results okh okhs ok4 ok5 okf s).1.failed_proxies = s.failed_proxies ∧
    (save_results okh okhs ok4 ok5 okf s).1.checked_proxies = s.checked_proxies := by
  simp only [save_results, andThen, final_http_eq, final_https_eq, final_socks4_eq,
    final_socks5_eq, final_failed_eq]
  split_ifs <;> simp_all

theorem save_results_fail_http (okhs ok4 ok5 okf : Bool) (s : ProxyChecker)
    (h : s.working_http ≠ []) :
    (save_results false okhs ok4 ok5 okf s).2 = true ∧
    (save_results false okhs ok4 ok5 okf s).1.file_http = s.file_http := by
  obtain ⟨e1, e2, e3⟩ := final_step_fail s.working_http s.file_http s.total_working_http h
  simp only [save_results, andThen, final_http_eq, final_https_eq, final_socks4_eq,
    final_socks5_eq, final_failed_eq]
  split_ifs <;> simp_all

theorem apply_outcome_spec (r : ProbeResults) (s : ProxyChecker) :
    (apply_outcome r s).checked_proxies = s.checked_proxies + 1 ∧
    (apply_outcome r s).working_http
      = s.working_http ++ (if r.http then [r.proxy] else []) ∧
    (apply_outcome r s).working_https
      = s.working_https ++ (if r.https then [r.proxy] else []) ∧
    (apply_outcome r s).working_socks4
      = s.working_socks4 ++ (if r.socks4 then [r.proxy] else []) ∧
    (apply_outcome r s).working_socks5
      = s.working_socks5 ++ (if r.socks5 then [r.proxy] else []) ∧
    (apply_outcome r s).failed_proxies
      = s.failed_proxies ++
        (if !(r.http || r.https || r.socks4 || r.socks5) then [r.proxy] else []) ∧
    (apply_outcome r s).file_http = s.file_http ∧
    (apply_outcome r s).file_https = s.file_https ∧
    (apply_outcome r s).file_socks4 = s.file_socks4 ∧
    (apply_outcome r s).file_socks5 = s.file_socks5 ∧
    (apply_outcome r s).file_failed = s.file_failed ∧
    (apply_outcome r s).total_working_http = s.total_working_http ∧
    (apply_outcome r s).total_working_https = s.total_working_https ∧
    (apply_outcome r s).total_working_socks4 = s.total_working_socks4 ∧
    (apply_outcome r s).total_working_socks5 = s.total_working_socks5 ∧
    (apply_outcome r s).total_failed_proxies = s.total_failed_proxies ∧
    (apply_outcome r s).total_proxies = s.total_proxies ∧
    (apply_outcome r s).save_interval = s.save_interval ∧
    (apply_outcome r s).last_save_count = s.last_save_count := by
  unfold apply_outcome
  split_ifs <;> simp_all

theorem record_result_eq (okh okhs ok4 ok5 okf : Bool) (r : ProbeResults)
    (s : ProxyChecker) :
    record_result okh okhs ok4 ok5 okf r s =
      if (apply_outcome r s).save_interval ≤
          (apply_outcome r s).checked_proxies - (apply_outcome r s).last_save_count then
        save_intermediate_results okh okhs ok4 ok5 okf (apply_outcome r s)
      else (apply_outcome r s, false) := rfl

theorem record_result_spec (okh okhs ok4 ok5 okf : Bool) (r : ProbeResults)
    (s : ProxyChecker) :
    (record_result okh okhs ok4 ok5 okf r s).1.checked_proxies = s.checked_proxies + 1 ∧
    live_http (record_result okh okhs ok4 ok5 okf r s).1
      = live_http s ++ (if r.http then [r.proxy] else []) ∧
    live_https (record_result okh okhs ok4 ok5 okf r s).1
      = live_https s ++ (if r.https then [r.proxy] else []) ∧
    live_socks4 (record_result okh okhs ok4 ok5 okf r s).1
      = live_socks4 s ++ (if r.socks4 then [r.proxy] else []) ∧
    live_socks5 (record_result okh okhs ok4 ok5 okf r s).1
      = live_socks5 s ++ (if r.socks5 then [r.proxy] else []) ∧
    live_failed (record_result okh okhs ok4 ok5 okf r s).1
      = live_failed s ++
        (if !(r.http || r.https || r.socks4 || r.socks5) then [r.proxy] else []) ∧
    (record_result okh okhs ok4 ok5 okf r s).1.total_proxies = s.total_proxies ∧
    (record_result okh okhs ok4 ok5 okf r s).1.save_interval = s.save_interval := by
  obtain ⟨hc, hwh, hwhs, hw4, hw5, hwf, hfh, hfhs, hf4, hf5, hff, hth, hths, ht4,
    ht5, htf, htp, hsi, hls⟩ := apply_outcome_spec r s
  rw [record_result_eq]
  by_cases hb : (apply_outcome r s).save_interval ≤
      (apply_outcome r s).checked_proxies - (apply_outcome r s).last_save_count
  · rw [if_pos hb]
    refine ⟨?_, ?_, ?_, ?_, ?_, ?_, ?_, ?_⟩ <;>
      simp only [save_inter_checked, save_inter_live_http, save_inter_live_https,
        save_inter_live_socks4, save_inter_live_socks5, save_inter_live_failed,
        save_inter_total_proxies, save_inter_interval] <;>
      simp [live_http, live_https, live_socks4, live_socks5, live_failed,
        hc, hwh, hwhs, hw4, hw5, hwf, hfh, hfhs, hf4, hf5, hff, htp, hsi]
  · rw [if_neg hb]
    refine ⟨?_, ?_, ?_, ?_, ?_, ?_, ?_, ?_⟩ <;>
      simp [live_http, live_https, live_socks4, live_socks5, live_failed,
        hc, hwh, hwhs, hw4, hw5, hwf, hfh, hfhs, hf4, hf5, hff, htp, hsi]

theorem record_result_tf (okh okhs ok4 ok5 okf : Bool) (r : ProbeResults)
    (s : ProxyChecker)
    (h1 : s.total_working_http = s.file_http.length)
    (h2 : s.total_working_https = s.file_https.length)
    (h3 : s.total_working_socks4 = s.file_socks4.length)
    (h4 : s.total_working_socks5 = s.file_socks5.length)
    (h5 : s.total_failed_proxies = s.file_failed.length) :
    (record_result okh okhs ok4 ok5 okf r s).1.total_working_http
      = (record_result okh okhs ok4 ok5 okf r s).1.file_http.length ∧
    (record_result okh okhs ok4 ok5 okf r s).1.total_working_https
      = (record_result okh okhs ok4 ok5 okf r s).1.file_https.length ∧
    (record_result okh okhs ok4 ok5 okf r s).1.total_working_socks4
      = (record_result okh okhs ok4 ok5 okf r s).1.file_socks4.length ∧
    (record_result okh okhs ok4 ok5 okf r s).1.total_working_socks5
      = (record_result okh okhs ok4 ok5 okf r s).1.file_socks5.length ∧
    (record_result okh okhs ok4 ok5 okf r s).1.total_failed_proxies
      = (record_result okh okhs ok4 ok5 okf r s).1.file_failed.length := by
  obtain ⟨hc, hwh, hwhs, hw4, hw5, hwf, hfh, hfhs, hf4, hf5, hff, hth, hths, ht4,
    ht5, htf, htp, hsi, hls⟩ := apply_outcome_spec r s
  rw [record_result_eq]
  by_cases hb : (apply_outcome r s).save_interval ≤
      (apply_outcome r s).checked_proxies - (apply_outcome r s).last_save_count
  · rw [if_pos hb]
    exact save_inter_tf okh okhs ok4 ok5 okf (apply_outcome r s)
      (by rw [hth, hfh]; exact h1) (by rw [hths, hfhs]; exact h2)
      (by rw [ht4, hf4]; exact h3) (by rw [ht5, hf5]; exact h4)
      (by rw [htf, hff]; exact h5)
  · rw [if_neg hb]
    exact ⟨by rw [hth, hfh]; exact h1, by rw [hths, hfhs]; exact h2,
      by rw [ht4, hf4]; exact h3, by rw [ht5, hf5]; exact h4,
      by rw [htf, hff]; exact h5⟩

/-! ### The run invariant -/

theorem compute_results_flags (p_http p_https p_socks4 p_socks5 : String → Bool)
    (p : String) :
    compute_results p_http p_https p_socks4 p_socks5 p =
      { proxy := p, http := p_http p, https := p_https p,
        socks4 := p_socks4 p, socks5 := p_socks5 p } := by
  unfold compute_results
  split_ifs <;> simp_all

theorem run_step (p_http p_https p_socks4 p_socks5 : String → Bool)
    (okh okhs ok4 ok5 okf : Bool) (N interval : Nat) (done : List String)
    (p : String) (s : ProxyChecker)
    (h : RunInv p_http p_https p_socks4 p_socks5 N interval done s) :
    RunInv p_http p_https p_socks4 p_socks5 N interval (done ++ [p])
      (check_proxy p_http p_https p_socks4 p_socks5 okh okhs ok4 ok5 okf p s).1 := by
  obtain ⟨h1, h2, h3, h4, h5, h6, h7, h8, h9, h10, h11, h12, h13⟩ := h
  obtain ⟨g1, g2, g3, g4, g5, g6, g7, g8⟩ :=
    record_result_spec okh okhs ok4 ok5 okf
      (compute_results p_http p_https p_socks4 p_socks5 p) s
  obtain ⟨t1, t2, t3, t4, t5⟩ :=
    record_result_tf okh okhs ok4 ok5 okf
      (compute_results p_http p_https p_socks4 p_socks5 p) s h9 h10 h11 h12 h13
  unfold check_proxy
  refine ⟨?_, ?_, ?_, ?_, ?_, ?_, ?_, ?_, t1, t2, t3, t4, t5⟩
  · simp [g1, h1]
  · simp [g7, h2]
  · simp [g8, h3]
  · rw [g2, h4, compute_results_flags]
    simp [List.filter_append, List.filter_cons]
  · rw [g3, h5, compute_results_flags]
    simp [List.filter_append, List.filter_cons]
  · rw [g4, h6, compute_results_flags]
    simp [List.filter_append, List.filter_cons]
  · rw [g5, h7, compute_results_flags]
    simp [List.filter_append, List.filter_cons]
  · rw [g6, h8, compute_results_flags]
    simp [List.filter_append, List.filter_cons, all_failed]

theorem run_fold_inv (p_http p_https p_socks4 p_socks5 : String → Bool)
    (okh okhs ok4 ok5 okf : Bool) (N interval : Nat) :
    ∀ (l done : List String) (s : ProxyChecker),
      RunInv p_http p_https p_socks4 p_socks5 N interval done s →
      RunInv p_http p_https p_socks4 p_socks5 N interval (done ++ l)
        (l.foldl
          (fun s p =>
            (check_proxy p_http p_https p_socks4 p_socks5 okh okhs ok4 ok5 okf p s).1)
          s)
  | [], done, s, h => by simpa using h
  | p :: l, done, s, h => by
    have step := run_step p_http p_https p_socks4 p_socks5 okh okhs ok4 ok5 okf
      N interval done p s h
    have rest := run_fold_inv p_http p_https p_socks4 p_socks5 okh okhs ok4 ok5 okf
      N interval l (done ++ [p]) _ step
    simpa [List.append_assoc] using rest

theorem run_fold_spec (p_http p_https p_socks4 p_socks5 : String → Bool)
    (okh okhs ok4 ok5 okf : Bool) (interval : Nat) (l : List String) :
    RunInv p_http p_https p_socks4 p_socks5 l.length interval l
      (run_fold p_http p_https p_socks4 p_socks5 okh okhs ok4 ok5 okf interval l) := by
  have h0 : RunInv p_http p_https p_socks4 p_socks5 l.length interval []
      { initChecker interval with total_proxies := l.length } := by
    refine ⟨?_, ?_, ?_, ?_, ?_, ?_, ?_, ?_, ?_, ?_, ?_, ?_, ?_⟩ <;>
      simp [initChecker, live_http, live_https, live_socks4, live_socks5, live_failed]
  have := run_fold_inv p_http p_https p_socks4 p_socks5 okh okhs ok4 ok5 okf
    l.length interval l [] _ h0
  simpa [run_fold] using this

theorem run_and_save_spec (p_http p_https p_socks4 p_socks5 : String → Bool)
    (interval : Nat) (l : List String) :
    (run_and_save p_http p_https p_socks4 p_socks5 true true true true true interval l).file_http
      = l.filter p_http ∧
    (run_and_save p_http p_https p_socks4 p_socks5 true true true true true interval l).file_https
      = l.filter p_https ∧
    (run_and_save p_http p_https p_socks4 p_socks5 true true true true true interval l).file_socks4
      = l.filter p_socks4 ∧
    (run_and_save p_http p_https p_socks4 p_socks5 true true true true true interval l).file_socks5
      = l.filter p_socks5 ∧
    (run_and_save p_http p_https p_socks4 p_socks5 true true true true true interval l).file_failed
      = l.filter (all_failed p_http p_https p_socks4 p_socks5) ∧
    (run_and_save p_http p_https p_socks4 p_socks5 true true true true true interval l).total_working_http
      = (l.filter p_http).length ∧
    (run_and_save p_http p_https p_socks4 p_socks5 true true true true true interval l).total_working_https
      = (l.filter p_https).length ∧
    (run_and_save p_http p_https p_socks4 p_socks5 true true true true true interval l).total_working_socks4
      = (l.filter p_socks4).length ∧
    (run_and_save p_http p_https p_socks4 p_socks5 true true true true true interval l).total_working_socks5
      = (l.filter p_socks5).length ∧
    (run_and_save p_http p_https p_socks4 p_socks5 true true true true true interval l).total_failed_proxies
      = (l.filter (all_failed p_http p_https p_socks4 p_socks5)).length ∧
    (run_and_save p_http p_https p_socks4 p_socks5 true true true true true interval l).checked_proxies
      = l.length ∧
    (run_and_save p_http p_https p_socks4 p_socks5 true true true true true interval l).total_proxies
      = l.length := by
  obtain ⟨h1, h2, h3, h4, h5, h6, h7, h8, h9, h10, h11, h12, h13⟩ :=
    run_fold_spec p_http p_https p_socks4 p_socks5 true true true true true interval l
  obtain ⟨a1, a2, a3, a4, a5, a6, a7, a8, a9, a10, a11, a12⟩ :=
    save_results_allok
      (run_fold p_http p_https p_socks4 p_socks5 true true true true true interval l)
  unfold run_and_save
  refine ⟨?_, ?_, ?_, ?_, ?_, ?_, ?_, ?_, ?_, ?_, ?_, ?_⟩
  · rw [a1]; exact h4
  · rw [a2]; exact h5
  · rw [a3]; exact h6
  · rw [a4]; exact h7
  · rw [a5]; exact h8
  · rw [a6, h9]
    have := congrArg List.length h4
    simpa [live_http] using this
  · rw [a7, h10]
    have := congrArg List.length h5
    simpa [live_https] using this
  · rw [a8, h11]
    have := congrArg List.length h6
    simpa [live_socks4] using this
  · rw [a9, h12]
    have := congrArg List.length h7
    simpa [live_socks5] using this
  · rw [a10, h13]
    have := congrArg List.length h8
    simpa [live_failed] using this
  · rw [a11]; exact h1
  · rw [a12]; exact h2

theorem sum_filters_eq_placements (p_http p_https p_socks4 p_socks5 : String → Bool)
    (l : List String) :
    (l.filter p_http).length + (l.filter p_https).length + (l.filter p_socks4).length +
      (l.filter p_socks5).length +
      (l.filter (all_failed p_http p_https p_socks4 p_socks5)).length
      = (l.map (fun p =>
          placements (p_http p) (p_https p) (p_socks4 p) (p_socks5 p))).sum := by
  induction l with
  | nil => simp
  | cons p l ih =>
    simp only [List.filter_cons, List.map_cons, List.sum_cons]
    rw [← ih]
    by_cases e1 : p_http p <;> by_cases e2 : p_https p <;>
      by_cases e3 : p_socks4 p <;> by_cases e4 : p_socks5 p <;>
      simp [e1, e2, e3, e4, placements, all_failed] <;> omega

theorem success_rate_bounds (s : ProxyChecker)
    (hf : s.total_failed_proxies ≤ s.total_proxies) (hp : 0 < s.total_proxies) :
    0 ≤ success_rate s ∧ success_rate s ≤ 100 := by
  have hpq : (0 : ℚ) < (s.total_proxies : ℚ) := by exact_mod_cast hp
  unfold success_rate
  dsimp only
  split_ifs with h
  · constructor
    · positivity
    · have hle : ((s.total_working_http + s.total_working_https +
          s.total_working_socks4 + s.total_working_socks5 : Nat) : ℚ)
          ≤ (s.total_proxies : ℚ) := by exact_mod_cast h
      calc ((s.total_working_http + s.total_working_https +
              s.total_working_socks4 + s.total_working_socks5 : Nat) : ℚ) /
              (s.total_proxies : ℚ) * 100
          ≤ 1 * 100 := by
            apply mul_le_mul_of_nonneg_right _ (by norm_num)
            exact (div_le_one hpq).mpr hle
        _ = 100 := by norm_num
  · constructor
    · apply mul_nonneg _ (by norm_num)
      apply div_nonneg _ (le_of_lt hpq)
      have : ((s.total_failed_proxies : Nat) : ℚ) ≤ (s.total_proxies : ℚ) := by
        exact_mod_cast hf
      linarith
    · calc ((s.total_proxies : ℚ) - (s.total_failed_proxies : ℚ)) /
            (s.total_proxies : ℚ) * 100
          ≤ 1 * 100 := by
            apply mul_le_mul_of_nonneg_right _ (by norm_num)
            apply (div_le_one hpq).mpr
            have : (0 : ℚ) ≤ (s.total_failed_proxies : ℚ) := by positivity
            linarith
        _ = 100 := by norm_num

/-! ### The claims -/

theorem append_singleton_ne_self {α : Type} (l : List α) (a : α) :
    (l ++ [a] = l) = False := by
  simp

theorem self_ne_append_singleton {α : Type} (l : List α) (a : α) :
    (l = l ++ [a]) = False := by
  simp

/-- C2: when the aggregator records an outcome (proxy_checker.py:232-244),
exactly one of the following happens: the endpoint is appended to at least
one of the four working buckets and the failed bucket is untouched, or the
endpoint is appended to the failed bucket and all four working buckets are
untouched — never neither, never both. -/
theorem C2_exactly_one_classification (r : ProbeResults) (s : ProxyChecker) :
    Xor'
      (((apply_outcome r s).working_http = s.working_http ++ [r.proxy] ∨
        (apply_outcome r s).working_https = s.working_https ++ [r.proxy] ∨
        (apply_outcome r s).working_socks4 = s.working_socks4 ++ [r.proxy] ∨
        (apply_outcome r s).working_socks5 = s.working_socks5 ++ [r.proxy]) ∧
        (apply_outcome r s).failed_proxies = s.failed_proxies)
      ((apply_outcome r s).failed_proxies = s.failed_proxies ++ [r.proxy] ∧
        (apply_outcome r s).working_http = s.working_http ∧
        (apply_outcome r s).working_https = s.working_https ∧
        (apply_outcome r s).working_socks4 = s.working_socks4 ∧
        (apply_outcome r s).working_socks5 = s.working_socks5) := by
  obtain ⟨hc, hwh, hwhs, hw4, hw5, hwf, hfh, hfhs, hf4, hf5, hff, hth, hths, ht4,
    ht5, htf, htp, hsi, hls⟩ := apply_outcome_spec r s
  by_cases e1 : r.http <;> by_cases e2 : r.https <;>
    by_cases e3 : r.socks4 <;> by_cases e4 : r.socks5 <;>
    simp [Xor', hwh, hwhs, hw4, hw5, hwf, e1, e2, e3, e4,
      append_singleton_ne_self, self_ne_append_singleton]

/-- C3: `check_proxy` evaluates all four probes for every candidate — the
outcome record carries exactly the value of each probe, independent of the
other probes' results (proxy_checker.py:214-228) — and the aggregation step
appends the endpoint to each working bucket whose flag is true, so
working-bucket memberships are independent and not mutually exclusive
(proxy_checker.py:234-241). -/
theorem C3_probes_unconditional_buckets_independent
    (p_http p_https p_socks4 p_socks5 : String → Bool) (p : String)
    (s : ProxyChecker) :
    compute_results p_http p_https p_socks4 p_socks5 p =
      { proxy := p, http := p_http p, https := p_https p,
        socks4 := p_socks4 p, socks5 := p_socks5 p } ∧
    (apply_outcome (compute_results p_http p_https p_socks4 p_socks5 p) s).working_http
      = s.working_http ++ (if p_http p then [p] else []) ∧
    (apply_outcome (compute_results p_http p_https p_socks4 p_socks5 p) s).working_https
      = s.working_https ++ (if p_https p then [p] else []) ∧
    (apply_outcome (compute_results p_http p_https p_socks4 p_socks5 p) s).working_socks4
      = s.working_socks4 ++ (if p_socks4 p then [p] else []) ∧
    (apply_outcome (compute_results p_http p_https p_socks4 p_socks5 p) s).working_socks5
      = s.working_socks5 ++ (if p_socks5 p then [p] else []) := by
  rw [compute_results_flags]
  obtain ⟨hc, hwh, hwhs, hw4, hw5, hwf, hfh, hfhs, hf4, hf5, hff, hth, hths, ht4,
    ht5, htf, htp, hsi, hls⟩ :=
    apply_outcome_spec
      { proxy := p, http := p_http p, https := p_https p,
        socks4 := p_socks4 p, socks5 := p_socks5 p } s
  refine ⟨rfl, ?_, ?_, ?_, ?_⟩ <;> simp [hwh, hwhs, hw4, hw5]

/-- C4: each probe is a total boolean function of the candidate string and
the network outcome — the bare `except` handlers absorb every exception —
and it returns `true` only when the probe succeeds: for HTTP/HTTPS, a
response with status 200 within the timeout; for SOCKS4/SOCKS5, a parseable
`ip:port` candidate whose proxied connect completes.  Every exception
outcome (timeout, refusal, protocol mismatch, malformed response) yields
`false` with no distinction of cause. -/
theorem C4_probes_total_uniform_failure :
    (∀ (proxy : String) (net : HttpResult),
      (test_http_proxy proxy net = true ↔ net = HttpResult.response 200) ∧
      test_http_proxy proxy HttpResult.exn = false) ∧
    (∀ (proxy : String) (net : HttpResult),
      (test_https_proxy proxy net = true ↔ net = HttpResult.response 200) ∧
      test_https_proxy proxy HttpResult.exn = false) ∧
    (∀ (proxy : String) (net : ConnectResult),
      (test_socks4_proxy proxy net = true ↔
        (∃ ip port, splitUnpack2 ':' proxy = some (ip, port) ∧
          (pyInt port).isSome ∧ net = ConnectResult.connected)) ∧
      test_socks4_proxy proxy ConnectResult.exn = false) ∧
    (∀ (proxy : String) (net : ConnectResult),
      (test_socks5_proxy proxy net = true ↔
        (∃ ip port, splitUnpack2 ':' proxy = some (ip, port) ∧
          (pyInt port).isSome ∧ net = ConnectResult.connected)) ∧
      test_socks5_proxy proxy ConnectResult.exn = false) := by
  refine ⟨?_, ?_, ?_, ?_⟩
  · intro proxy net
    cases net with
    | response status => simp [test_http_proxy]
    | exn => simp [test_http_proxy]
  · intro proxy net
    cases net with
    | response status => simp [test_https_proxy]
    | exn => simp [test_https_proxy]
  · intro proxy net
    rcases hs : splitUnpack2 ':' proxy with _ | ⟨ip, port⟩
    · constructor
      · simp [test_socks4_proxy, hs]
      · simp [test_socks4_proxy, hs]
    · rcases hn : pyInt port with _ | n
      · constructor
        · simp [test_socks4_proxy, hs, hn]
        · simp [test_socks4_proxy, hs, hn]
      · constructor
        · cases net
          · simp only [test_socks4_proxy, hs, hn]
            simp
            exact ⟨ip, port, ⟨rfl, rfl⟩, by simp [hn]⟩
          · simp [test_socks4_proxy, hs, hn]
        · simp [test_socks4_proxy, hs, hn]
  · intro proxy net
    rcases hs : splitUnpack2 ':' proxy with _ | ⟨ip, port⟩
    · constructor
      · simp [test_socks5_proxy, hs]
      · simp [test_socks5_proxy, hs]
    · rcases hn : pyInt port with _ | n
      · constructor
        · simp [test_socks5_proxy, hs, hn]
        · simp [test_socks5_proxy, hs, hn]
      · constructor
        · cases net
          · simp only [test_socks5_proxy, hs, hn]
            simp
            exact ⟨ip, port, ⟨rfl, rfl⟩, by simp [hn]⟩
          · simp [test_socks5_proxy, hs, hn]
        · simp [test_socks5_proxy, hs, hn]

/-- C7: for any input line sequence — duplicates and whitespace variants
included — `load_proxies` produces a candidate list whose size is the
number of distinct strings obtained by stripping each line and dropping the
empty results; the reported counts satisfy removed = original - unique
(with unique ≤ original, so the subtraction is exact). -/
theorem C7_dedup_counts (lines : List String) :
    unique_count lines
      = ((lines.map pyStrip).filter (fun l => l ≠ "")).toFinset.card ∧
    duplicates_removed lines = original_count lines - unique_count lines ∧
    unique_count lines ≤ original_count lines := by
  refine ⟨?_, rfl, ?_⟩
  · rw [List.card_toFinset]
    rfl
  · exact List.Sublist.length_le (List.dedup_sublist _)

/-- C9 counterexample: the checker's `load_proxies` admits the string
`"notaproxy"` — which fails the `Endpoint` syntactic validation — as a
candidate, so invalid strings are not rejected at load time and do reach
the probes and buckets. -/
theorem C9_counterexample :
    load_proxies ["notaproxy"] = ["notaproxy"] ∧
    validate_proxy_format "notaproxy" = false := by
  constructor <;> decide

/-- C9 amended: endpoint strings accepted by the scraper's
`validate_proxy_format` have a non-empty host part and a port in [1,65535];
the checker's `load_proxies`, however, applies no syntactic validation and
admits every distinct non-empty stripped line. -/
theorem C9_scraper_validation (proxy : String)
    (h : validate_proxy_format proxy = true) :
    ∃ ip port : String, splitUnpack2 ':' proxy = some (ip, port) ∧ ip ≠ "" ∧
      ∃ n : Int, pyInt port = some n ∧ 1 ≤ n ∧ n ≤ 65535 := by
  unfold validate_proxy_format at h
  rcases hs : splitUnpack2 ':' proxy with _ | ⟨ip, port⟩
  · rw [hs] at h
    simp at h
  · rw [hs] at h
    dsimp only at h
    refine ⟨ip, port, rfl, ?_, ?_⟩
    · intro hip
      subst hip
      simp [pySplitOn, pySplitAux] at h
    · rcases hn : pyInt port with _ | n
      · rw [hn] at h
        simp at h
      · rw [hn] at h
        split_ifs at h <;> simp_all

/-- C1 counterexample: a run over the single candidate `"1.2.3.4:80"` whose
probe outcome is http-and-https working (interval 500 ≥ 1, all writes
succeed) writes 2 lines across the five output files while `checkedCount`
= 1 — the claimed equality fails whenever an endpoint lands in more than
one working bucket. -/
theorem C1_counterexample :
    1 ≤ (initChecker 500).save_interval ∧
    lines_written (run_and_save (fun _ => true) (fun _ => true) (fun _ => false)
        (fun _ => false) true true true true true 500 ["1.2.3.4:80"])
      ≠ (run_and_save (fun _ => true) (fun _ => true) (fun _ => false)
        (fun _ => false) true true true true true 500 ["1.2.3.4:80"]).checked_proxies := by
  constructor <;> decide

/-- C1 amended: for any checkpoint interval ≥ 1, the total number of lines
written to the five output files across all checkpoint drains plus the
final drain equals the total number of bucket placements — one line per
true protocol flag of each record call, and one line (the failed bucket)
for a record call with no true flag.  This equals `checkedCount` exactly
when no outcome has more than one true flag. -/
theorem C1_conservation (p_http p_https p_socks4 p_socks5 : String → Bool)
    (interval : Nat) (l : List String) (h : 1 ≤ interval) :
    lines_written (run_and_save p_http p_https p_socks4 p_socks5
        true true true true true interval l)
      = (l.map (fun p =>
          placements (p_http p) (p_https p) (p_socks4 p) (p_socks5 p))).sum := by
  obtain ⟨f1, f2, f3, f4, f5, t1, t2, t3, t4, t5, hc, hp⟩ :=
    run_and_save_spec p_http p_https p_socks4 p_socks5 interval l
  unfold lines_written
  rw [f1, f2, f3, f4, f5]
  exact sum_filters_eq_placements _ _ _ _ l

/-- C1 witness: the amended conservation equation at a concrete run with
interval 1 (every record triggers a checkpoint drain). -/
theorem C1_conservation_witness :
    (1 : Nat) ≤ 1 ∧
    lines_written (run_and_save (fun _ => true) (fun _ => true) (fun _ => false)
        (fun _ => false) true true true true true 1 ["a", "b"])
      = ((["a", "b"] : List String).map (fun p =>
          placements ((fun (_ : String) => true) p) ((fun (_ : String) => true) p)
            ((fun (_ : String) => false) p) ((fun (_ : String) => false) p))).sum :=
  ⟨by decide,
    C1_conservation (fun _ => true) (fun _ => true) (fun _ => false)
      (fun _ => false) 1 ["a", "b"] (by decide)⟩

/-- C5 counterexample: after the final drain (`save_results`), which adds
bucket lengths to the totals WITHOUT clearing the buckets
(proxy_checker.py:291-294 has no `.clear()`), the claimed equation
total + bucket-length = category count fails: a run over one http-working
candidate ends with total_working_http = 1 and working_http still of
length 1, against a category count of 1. -/
theorem C5_counterexample :
    (run_and_save (fun _ => true) (fun _ => false) (fun _ => false) (fun _ => false)
        true true true true true 500 ["1.2.3.4:80"]).total_working_http +
      (run_and_save (fun _ => true) (fun _ => false) (fun _ => false) (fun _ => false)
        true true true true true 500 ["1.2.3.4:80"]).working_http.length
      ≠ ((["1.2.3.4:80"] : List String).filter (fun _ => true)).length := by
  decide

/-- C5 amended: at every point of the checking phase (that is, after any
prefix `l` of record calls, through all checkpoint drains), each category's
cumulative total plus its in-memory bucket length equals the number of
record calls whose outcome placed the endpoint in that category, and
`checkedCount` equals the number of record calls; the final drain then
moves the remaining bucket lengths into the totals (without clearing the
buckets), after which the totals alone equal the category counts. -/
theorem C5_totals_track_categories (p_http p_https p_socks4 p_socks5 : String → Bool)
    (interval : Nat) (l : List String) (h : 1 ≤ interval) :
    (run_fold p_http p_https p_socks4 p_socks5 true true true true true interval l).total_working_http +
      (run_fold p_http p_https p_socks4 p_socks5 true true true true true interval l).working_http.length
      = (l.filter p_http).length ∧
    (run_fold p_http p_https p_socks4 p_socks5 true true true true true interval l).total_working_https +
      (run_fold p_http p_https p_socks4 p_socks5 true true true true true interval l).working_https.length
      = (l.filter p_https).length ∧
    (run_fold p_http p_https p_socks4 p_socks5 true true true true true interval l).total_working_socks4 +
      (run_fold p_http p_https p_socks4 p_socks5 true true true true true interval l).working_socks4.length
      = (l.filter p_socks4).length ∧
    (run_fold p_http p_https p_socks4 p_socks5 true true true true true interval l).total_working_socks5 +
      (run_fold p_http p_https p_socks4 p_socks5 true true true true true interval l).working_socks5.length
      = (l.filter p_socks5).length ∧
    (run_fold p_http p_https p_socks4 p_socks5 true true true true true interval l).total_failed_proxies +
      (run_fold p_http p_https p_socks4 p_socks5 true true true true true interval l).failed_proxies.length
      = (l.filter (all_failed p_http p_https p_socks4 p_socks5)).length ∧
    (run_fold p_http p_https p_socks4 p_socks5 true true true true true interval l).checked_proxies
      = l.length ∧
    (run_and_save p_http p_https p_socks4 p_socks5 true true true true true interval l).total_working_http
      = (l.filter p_http).length ∧
    (run_and_save p_http p_https p_socks4 p_socks5 true true true true true interval l).total_working_https
      = (l.filter p_https).length ∧
    (run_and_save p_http p_https p_socks4 p_socks5 true true true true true interval l).total_working_socks4
      = (l.filter p_socks4).length ∧
    (run_and_save p_http p_https p_socks4 p_socks5 true true true true true interval l).total_working_socks5
      = (l.filter p_socks5).length ∧
    (run_and_save p_http p_https p_socks4 p_socks5 true true true true true interval l).total_failed_proxies
      = (l.filter (all_failed p_http p_https p_socks4 p_socks5)).length := by
  obtain ⟨h1, h2, h3, h4, h5, h6, h7, h8, h9, h10, h11, h12, h13⟩ :=
    run_fold_spec p_http p_https p_socks4 p_socks5 true true true true true interval l
  obtain ⟨f1, f2, f3, f4, f5, t1, t2, t3, t4, t5, hc, hp⟩ :=
    run_and_save_spec p_http p_https p_socks4 p_socks5 interval l
  refine ⟨?_, ?_, ?_, ?_, ?_, h1, t1, t2, t3, t4, t5⟩
  · rw [h9]
    have := congrArg List.length h4
    simpa [live_http] using this
  · rw [h10]
    have := congrArg List.length h5
    simpa [live_https] using this
  · rw [h11]
    have := congrArg List.length h6
    simpa [live_socks4] using this
  · rw [h12]
    have := congrArg List.length h7
    simpa [live_socks5] using this
  · rw [h13]
    have := congrArg List.length h8
    simpa [live_failed] using this

/-- C5 witness: the amended totals equation at a concrete run. -/
theorem C5_totals_track_categories_witness :
    (1 : Nat) ≤ 1 ∧
    (run_fold (fun _ => true) (fun _ => false) (fun _ => false) (fun _ => false)
        true true true true true 1 ["a", "b"]).total_working_http +
      (run_fold (fun _ => true) (fun _ => false) (fun _ => false) (fun _ => false)
        true true true true true 1 ["a", "b"]).working_http.length
      = ((["a", "b"] : List String).filter (fun _ => true)).length :=
  ⟨by decide,
    (C5_totals_track_categories (fun _ => true) (fun _ => false) (fun _ => false)
      (fun _ => false) 1 ["a", "b"] (by decide)).1⟩

/-- C8: for a fixed deterministic probe layer (each candidate's flags a
function of the candidate alone), the final cumulative totals and
`checkedCount` depend only on the multiset of candidates, not on the order
in which the per-candidate outcomes are recorded — the order-invariance that
makes the result independent of the worker pool size W. -/
theorem C8_order_independence (p_http p_https p_socks4 p_socks5 : String → Bool)
    (interval : Nat) (l1 l2 : List String) (h : l1.Perm l2) :
    (run_and_save p_http p_https p_socks4 p_socks5 true true true true true interval l1).total_working_http
      = (run_and_save p_http p_https p_socks4 p_socks5 true true true true true interval l2).total_working_http ∧
    (run_and_save p_http p_https p_socks4 p_socks5 true true true true true interval l1).total_working_https
      = (run_and_save p_http p_https p_socks4 p_socks5 true true true true true interval l2).total_working_https ∧
    (run_and_save p_http p_https p_socks4 p_socks5 true true true true true interval l1).total_working_socks4
      = (run_and_save p_http p_https p_socks4 p_socks5 true true true true true interval l2).total_working_socks4 ∧
    (run_and_save p_http p_https p_socks4 p_socks5 true true true true true interval l1).total_working_socks5
      = (run_and_save p_http p_https p_socks4 p_socks5 true true true true true interval l2).total_working_socks5 ∧
    (run_and_save p_http p_https p_socks4 p_socks5 true true true true true interval l1).total_failed_proxies
      = (run_and_save p_http p_https p_socks4 p_socks5 true true true true true interval l2).total_failed_proxies ∧
    (run_and_save p_http p_https p_socks4 p_socks5 true true true true true interval l1).checked_proxies
      = (run_and_save p_http p_https p_socks4 p_socks5 true true true true true interval l2).checked_proxies := by
  obtain ⟨f1, f2, f3, f4, f5, t1, t2, t3, t4, t5, hc, hp⟩ :=
    run_and_save_spec p_http p_https p_socks4 p_socks5 interval l1
  obtain ⟨g1, g2, g3, g4, g5, u1, u2, u3, u4, u5, kc, kp⟩ :=
    run_and_save_spec p_http p_https p_socks4 p_socks5 interval l2
  refine ⟨?_, ?_, ?_, ?_, ?_, ?_⟩
  · rw [t1, u1]; exact (h.filter p_http).length_eq
  · rw [t2, u2]; exact (h.filter p_https).length_eq
  · rw [t3, u3]; exact (h.filter p_socks4).length_eq
  · rw [t4, u4]; exact (h.filter p_socks5).length_eq
  · rw [t5, u5]; exact (h.filter _).length_eq
  · rw [hc, kc]; exact h.length_eq

/-- C8 witness: order invariance on a concrete two-candidate set and its
transposition. -/
theorem C8_order_independence_witness :
    (["a", "b"] : List String).Perm ["b", "a"] ∧
    (run_and_save (fun _ => true) (fun _ => false) (fun _ => false) (fun _ => false)
        true true true true true 500 ["a", "b"]).total_working_http
      = (run_and_save (fun _ => true) (fun _ => false) (fun _ => false) (fun _ => false)
        true true true true true 500 ["b", "a"]).total_working_http :=
  ⟨List.Perm.swap "b" "a" [],
    (C8_order_independence (fun _ => true) (fun _ => false) (fun _ => false)
      (fun _ => false) 500 ["a", "b"] ["b", "a"] (List.Perm.swap "b" "a" [])).1⟩

/-- C10: at the end of any non-empty run the displayed success rate lies in
[0, 100]: either the summed per-protocol totals are at most the number of
tested proxies and the direct ratio is used, or the computation falls back
to (total - failed) / total, which is in [0, 1] because the failed total
never exceeds the number of tested proxies. -/
theorem C10_success_rate_in_range (p_http p_https p_socks4 p_socks5 : String → Bool)
    (interval : Nat) (l : List String) (h : l ≠ []) :
    0 ≤ success_rate
        (run_fold p_http p_https p_socks4 p_socks5 true true true true true interval l) ∧
    success_rate
        (run_fold p_http p_https p_socks4 p_socks5 true true true true true interval l)
      ≤ 100 := by
  obtain ⟨h1, h2, h3, h4, h5, h6, h7, h8, h9, h10, h11, h12, h13⟩ :=
    run_fold_spec p_http p_https p_socks4 p_socks5 true true true true true interval l
  apply success_rate_bounds
  · rw [h13, h2]
    have hlen := congrArg List.length h8
    simp only [live_failed, List.length_append] at hlen
    calc (run_fold p_http p_https p_socks4 p_socks5 true true true true true interval l).file_failed.length
        ≤ (l.filter (all_failed p_http p_https p_socks4 p_socks5)).length := by omega
      _ ≤ l.length := List.length_filter_le _ _
  · rw [h2]
    exact List.length_pos.mpr h

/-- C10 witness: a run over one candidate working for all four protocols —
the summed totals (4) exceed the proxy count (1), so the fallback branch is
exercised — still yields a rate in [0, 100]. -/
theorem C10_success_rate_in_range_witness :
    (["a"] : List String) ≠ [] ∧
    (0 ≤ success_rate (run_fold (fun _ => true) (fun _ => true) (fun _ => true)
        (fun _ => true) true true true true true 500 ["a"]) ∧
      success_rate (run_fold (fun _ => true) (fun _ => true) (fun _ => true)
        (fun _ => true) true true true true true 500 ["a"]) ≤ 100) :=
  ⟨by decide,
    C10_success_rate_in_range (fun _ => true) (fun _ => true) (fun _ => true)
      (fun _ => true) 500 ["a"] (by decide)⟩

/-- C6 counterexample: the final drain has no retry — `save_results` is
invoked exactly once at run end (proxy_checker.py:346), and a raise there
propagates to `main`'s generic handler (proxy_checker.py:373-374) after
which the process ends.  A complete run over one http-working candidate
whose http file is unwritable therefore terminates with the failure
reported (the drain raised), the endpoint recorded (`checkedCount` = 1) and
still held in the in-memory bucket, yet zero lines written to any output
file — the recorded endpoint is never persisted, refuting "a later retry
of the drain can still write their contents" for the final drain. -/
theorem C6_counterexample :
    (save_results false true true true true
      (run_fold (fun _ => true) (fun _ => false) (fun _ => false) (fun _ => false)
        false true true true true 500 ["1.2.3.4:80"])).2 = true ∧
    (run_and_save (fun _ => true) (fun _ => false) (fun _ => false) (fun _ => false)
        false true true true true 500 ["1.2.3.4:80"]).checked_proxies = 1 ∧
    (run_and_save (fun _ => true) (fun _ => false) (fun _ => false) (fun _ => false)
        false true true true true 500 ["1.2.3.4:80"]).working_http = ["1.2.3.4:80"] ∧
    lines_written (run_and_save (fun _ => true) (fun _ => false) (fun _ => false)
        (fun _ => false) false true true true true 500 ["1.2.3.4:80"]) = 0 := by
  refine ⟨by decide, by decide, by decide, by decide⟩

/-- C6 amended: a failing CHECKPOINT write never loses a recorded endpoint
and does not abort the run: (1) whatever subset of target files is
writable, a checkpoint drain preserves every category's
written-plus-in-memory lines and the progress counter, and
`last_save_count` advances only when no write failed, so a failed
checkpoint drain is retried at the next record call; (2) a failing write on
a non-empty bucket raises the error that `run_check` reports to the
operator; (3) a retry with all files writable succeeds, emptying all
buckets into the files; (4) the run itself processes every candidate
regardless of which target files are writable.  A failing FINAL drain is
likewise reported and leaves the in-memory buckets retained (not cleared)
and the progress counter intact — (5) `save_results` never touches the
buckets, and (6) a failing http write leaves the http file exactly as it
was — but the run is ending and the code performs no retry of the final
drain, so those retained contents are never persisted. -/
theorem C6_drain_failure_retains_buckets :
    (∀ (okh okhs ok4 ok5 okf : Bool) (s : ProxyChecker),
      live_http (save_intermediate_results okh okhs ok4 ok5 okf s).1 = live_http s ∧
      live_https (save_intermediate_results okh okhs ok4 ok5 okf s).1 = live_https s ∧
      live_socks4 (save_intermediate_results okh okhs ok4 ok5 okf s).1 = live_socks4 s ∧
      live_socks5 (save_intermediate_results okh okhs ok4 ok5 okf s).1 = live_socks5 s ∧
      live_failed (save_intermediate_results okh okhs ok4 ok5 okf s).1 = live_failed s ∧
      (save_intermediate_results okh okhs ok4 ok5 okf s).1.checked_proxies
        = s.checked_proxies ∧
      (save_intermediate_results okh okhs ok4 ok5 okf s).1.last_save_count
        = (if (save_intermediate_results okh okhs ok4 ok5 okf s).2 then
            s.last_save_count else s.checked_proxies)) ∧
    (∀ (okhs ok4 ok5 okf : Bool) (s : ProxyChecker),
      s.working_http ≠ [] →
      (save_intermediate_results false okhs ok4 ok5 okf s).2 = true) ∧
    (∀ s : ProxyChecker,
      (save_intermediate_results true true true true true s).2 = false ∧
      (save_intermediate_results true true true true true s).1.working_http = [] ∧
      (save_intermediate_results true true true true true s).1.working_https = [] ∧
      (save_intermediate_results true true true true true s).1.working_socks4 = [] ∧
      (save_intermediate_results true true true true true s).1.working_socks5 = [] ∧
      (save_intermediate_results true true true true true s).1.failed_proxies = []) ∧
    (∀ (p_http p_https p_socks4 p_socks5 : String → Bool)
        (okh okhs ok4 ok5 okf : Bool) (interval : Nat) (l : List String),
      (run_fold p_http p_https p_socks4 p_socks5 okh okhs ok4 ok5 okf interval l).checked_proxies
        = l.length) ∧
    (∀ (okh okhs ok4 ok5 okf : Bool) (s : ProxyChecker),
      (save_results okh okhs ok4 ok5 okf s).1.working_http = s.working_http ∧
      (save_results okh okhs ok4 ok5 okf s).1.working_https = s.working_https ∧
      (save_results okh okhs ok4 ok5 okf s).1.working_socks4 = s.working_socks4 ∧
      (save_results okh okhs ok4 ok5 okf s).1.working_socks5 = s.working_socks5 ∧
      (save_results okh okhs ok4 ok5 okf s).1.failed_proxies = s.failed_proxies ∧
      (save_results okh okhs ok4 ok5 okf s).1.checked_proxies = s.checked_proxies) ∧
    (∀ (okhs ok4 ok5 okf : Bool) (s : ProxyChecker),
      s.working_http ≠ [] →
      (save_results false okhs ok4 ok5 okf s).2 = true ∧
      (save_results false okhs ok4 ok5 okf s).1.file_http = s.file_http) := by
  refine ⟨?_, ?_, ?_, ?_, ?_, ?_⟩
  · intro okh okhs ok4 ok5 okf s
    exact ⟨save_inter_live_http okh okhs ok4 ok5 okf s,
      save_inter_live_https okh okhs ok4 ok5 okf s,
      save_inter_live_socks4 okh okhs ok4 ok5 okf s,
      save_inter_live_socks5 okh okhs ok4 ok5 okf s,
      save_inter_live_failed okh okhs ok4 ok5 okf s,
      save_inter_checked okh okhs ok4 ok5 okf s,
      save_inter_last_save okh okhs ok4 ok5 okf s⟩
  · intro okhs ok4 ok5 okf s hne
    exact save_inter_fail_http okhs ok4 ok5 okf s hne
  · intro s
    obtain ⟨b1, b2, b3, b4, b5⟩ := save_inter_allok_buckets s
    exact ⟨save_inter_allok_err s, b1, b2, b3, b4, b5⟩
  · intro p_http p_https p_socks4 p_socks5 okh okhs ok4 ok5 okf interval l
    exact (run_fold_spec p_http p_https p_socks4 p_socks5 okh okhs ok4 ok5 okf
      interval l).1
  · intro okh okhs ok4 ok5 okf s
    exact save_results_buckets okh okhs ok4 ok5 okf s
  · intro okhs ok4 ok5 okf s hne
    exact save_results_fail_http okhs ok4 ok5 okf s hne

/-- C6 witness: on a state holding one recorded http endpoint, a checkpoint
drain whose http file is unwritable raises the reported error, and so does
a final drain whose http file is unwritable, leaving the http file
untouched. -/
theorem C6_drain_failure_retains_buckets_witness :
    ({ initChecker 500 with working_http := ["1.2.3.4:80"], checked_proxies := 1 } : ProxyChecker).working_http ≠ [] ∧
    (save_intermediate_results false true true true true
      { initChecker 500 with working_http := ["1.2.3.4:80"], checked_proxies := 1 }).2 = true ∧
    (save_results false true true true true
      { initChecker 500 with working_http := ["1.2.3.4:80"], checked_proxies := 1 }).2 = true :=
  ⟨by decide,
    C6_drain_failure_retains_buckets.2.1 true true true true
      { initChecker 500 with working_http := ["1.2.3.4:80"], checked_proxies := 1 }
      (by decide),
    (C6_drain_failure_retains_buckets.2.2.2.2.2 true true true true
      { initChecker 500 with working_http := ["1.2.3.4:80"], checked_proxies := 1 }
      (by decide)).1⟩

/-- C9 witness: the scraper-validated endpoint `"1.2.3.4:80"` has a
non-empty host and a port in range. -/
theorem C9_scraper_validation_witness :
    validate_proxy_format "1.2.3.4:80" = true ∧
    (∃ ip port : String, splitUnpack2 ':' "1.2.3.4:80" = some (ip, port) ∧ ip ≠ "" ∧
      ∃ n : Int, pyInt port = some n ∧ 1 ≤ n ∧ n ≤ 65535) :=
  ⟨by decide, C9_scraper_validation "1.2.3.4:80" (by decide)⟩
